import Mathlib

/-!
Verification of the statement-description and argument-binding core
(`src/sqlx-core/src/describe.rs` and `src/sqlx-macros-core/src/query/args.rs`)
against its natural-language specification.

Modelling conventions:

* `Describe` is the Rust struct `Describe<DB>`, generic over the backend's
  column type `C` and type-info type `T`.  `Option<Either<Vec<TypeInfo>, usize>>`
  becomes `Option (List T ⊕ Nat)`; the `HashMap<String, Arc<[String]>>` of
  `known_enum_tys` becomes an association list.
* Fallible Rust code returning `crate::Result` becomes `Except`.  Code that can
  also panic (`unimplemented!`, `unreachable!`, slice indexing) returns
  `Outcome`, whose `panicked` constructor models a fatal panic (an abort, not a
  value returned to the caller) and `err` models a returned recoverable error.
* `quote_args` is a proc macro producing a token stream; per the spec's design
  notes only its runtime-equivalent semantics are modelled.  `quoteArgs`
  returns a `Generated` value recording exactly what the emitted program does:
  the `let argN = Into::<ty>::into(exprN)` bindings produced by the
  `zip`, the argument count used by `reserve`, and the order of the
  `query_args.add(argN)` calls.  `runGenerated` executes that program;
  it returns `none` when the emitted program is ill-formed (it references an
  `argN` binding that was never emitted, or uses an `Into` conversion that
  does not exist), which in Rust is a compile error of the expanded code.
* Argument expressions are modelled by their runtime values (`Value`); the
  backend's fallible `Encode` step (reached through `query_args.add`) is a
  parameter `encode` of the runtime semantics, as it is backend code outside
  this repository.  Of the Rust `Into` impls the reflexive ones are modelled
  (`intoParam` succeeds exactly when the value's Rust type equals the target
  type's tokens), which is all the emitted conversions the claims exercise.
* The ident construction `format_ident!("{name}")` inside `ephemeral_enum_ty`
  is compile-time scaffolding whose result is unused in the emitted tokens;
  per the spec (§9, code-generation-specific behavior excluded) it is not
  modelled.
-/

namespace Sqlp

/-- Outcome of running a piece of Rust code that may return a value, return a
recoverable error (`Result::Err`), or panic (`unimplemented!` / `unreachable!` /
out-of-bounds indexing).  A `panicked` outcome aborts; nothing is returned to
the caller. -/
inductive Outcome (ε α : Type) where
  | ok : α → Outcome ε α
  | err : ε → Outcome ε α
  | panicked : String → Outcome ε α
deriving DecidableEq, Repr

/-- A backend type descriptor (`DB::TypeInfo`).  Only its name is observable
here: `TypeInfo::name()` and the `Display` used in error messages both render
the name. -/
structure TypeInfo where
  name : String
deriving DecidableEq, Repr

/-- The struct `Describe<DB>` from `src/sqlx-core/src/describe.rs`, generic
over the backend's column type `C` and type-info type `T`. -/
structure Describe (C T : Type) where
  columns : List C
  parameters : Option (List T ⊕ Nat)
  nullable : List (Option Bool)
  known_enum_tys : List (String × List String)
deriving DecidableEq, Repr

/-- `Describe::column`: `&self.columns[index]`.  Slice indexing panics when
`index` is out of bounds; there is no recoverable-error path (error type
`Empty`). -/
def Describe.column (d : Describe C T) (index : Nat) : Outcome Empty C :=
  match d.columns.get? index with
  | some c => Outcome.ok c
  | none =>
      Outcome.panicked
        ("index out of bounds: the len is " ++ toString d.columns.length
          ++ " but the index is " ++ toString index)

/-- `Describe::nullable`:
`self.nullable.get(column).copied().and_then(identity)` — a total function,
never a panic or error.  (Named `nullableAt` because the Lean field accessor
already takes the Rust field's name.) -/
def Describe.nullableAt (d : Describe C T) (column : Nat) : Option Bool :=
  (d.nullable.get? column).bind id

/-- `Iterator::collect::<Result<Vec<_>, _>>()`: convert each element in order,
stopping at the first failure, which is returned as the overall failure. -/
def collectResults (f : α → Except ε β) : List α → Except ε (List β)
  | [] => Except.ok []
  | a :: as =>
      match f a with
      | Except.error e => Except.error e
      | Except.ok b => (collectResults f as).map (fun bs => b :: bs)

/-- Collecting `Option`s: `some` of all results, or `none` at the first
missing one. -/
def collectOptions (f : α → Option β) : List α → Option (List β)
  | [] => some []
  | a :: as =>
      match f a with
      | none => none
      | some b => (collectOptions f as).map (fun bs => b :: bs)

/-- A runtime argument value (what an argument expression of the macro
evaluates to). -/
inductive Value where
  | int (n : Int)
  | text (s : String)
deriving DecidableEq, Repr

/-- The Rust type of a value, rendered as the type tokens the resolver
produces (`DB::param_type_for_id` returns such token strings, and the
ephemeral enum fallback produces `::std::string::String`). -/
def Value.rustTy : Value → String
  | Value.int _ => "i64"
  | Value.text _ => "::std::string::String"

/-- The backend capabilities `quote_args` consumes through `DB: DatabaseExt`:
`DB::param_type_for_id` (native catalog lookup, `None` when the reported type
has no native mapping) and `str::parse::<TokenStream>` applied to the returned
type string. -/
structure Db where
  paramTypeForId : TypeInfo → Option String
  parse : String → Except String String

/-- `ephemeral_enum_ty` from `src/sqlx-macros-core/src/query/args.rs`: the
emitted tokens are always `::std::string::String`; the variant list `args` is
never consulted (the generated-enum block is commented out in the source). -/
def ephemeral_enum_ty (name : String) (args : List String) : Except String String :=
  Except.ok "::std::string::String"

/-- One step of the parameter resolution loop in `quote_args` (the closure
mapped over `params`): native catalog first, then the enum-registry fallback
keyed by the type's name, otherwise the unsupported-type error.  Error
messages are those the source formats. -/
def resolveParam (db : Db) (info : Describe C TypeInfo) (param : TypeInfo) :
    Except String String :=
  match db.paramTypeForId param, info.known_enum_tys.lookup param.name with
  | some rt, _ =>
      match db.parse rt with
      | Except.ok ts => Except.ok ts
      | Except.error err =>
          Except.error
            ("failed to parse parameter type `" ++ param.name ++ "`: " ++ err)
  | none, some et => ephemeral_enum_ty param.name et
  | none, none =>
      Except.error ("parameter type `" ++ param.name ++ "` is not supported")

/-- The program emitted by `quote_args`, up to its runtime-equivalent
semantics: `bindings` records the `let argN = &Into::<ty>::into(exprN);`
statements (the source zips `arg_exprs` with the resolved `params`, so this
list has length `min` of the two), `argsCount` the count passed to `reserve`,
and `addNames` the indices `N` of the `query_args.add(argN)` calls appended by
the final quote (one per supplied argument expression). -/
structure Generated where
  bindings : List (Value × String)
  argsCount : Nat
  addNames : List Nat
deriving DecidableEq, Repr

/-- `quote_args` from `src/sqlx-macros-core/src/query/args.rs`.  Empty
argument list: early successful return of the default-arguments program.
Otherwise the parameters are required to be the `Typed` (`Either::Left`)
branch — anything else hits `unimplemented!`, a panic.  All parameter
positions are then resolved (`collect::<crate::Result<Vec<_>>>()?`), and the
emitted program is assembled. -/
def quoteArgs (db : Db) (argExprs : List Value) (info : Describe C TypeInfo) :
    Outcome String Generated :=
  if argExprs.isEmpty then
    Outcome.ok { bindings := [], argsCount := 0, addNames := [] }
  else
    match info.parameters with
    | some (Sum.inl params) =>
        match collectResults (resolveParam db info) params with
        | Except.error e => Outcome.err e
        | Except.ok tys =>
            Outcome.ok
              { bindings := argExprs.zip tys
              , argsCount := argExprs.length
              , addNames := List.range argExprs.length }
    | _ => Outcome.panicked "only normal parameter inputs are supported safely"

/-- The Rust `Into::<Ty>` conversion in an emitted binding.  The reflexive
impls are modelled: the conversion exists exactly when the value's Rust type
is the target type's tokens.  `none` means no impl exists, i.e. the expanded
code does not compile. -/
def intoParam (v : Value) (ty : String) : Option Value :=
  if v.rustTy = ty then some v else none

/-- One `.and_then(move |mut query_args| query_args.add(argN).map(move |()| query_args))`
link of the emitted chain: on an already-failed result do nothing, otherwise
encode the value and append it to the buffer. -/
def addStep (encode : Value → Except String β)
    (acc : Except String (List β)) (v : Value) : Except String (List β) :=
  acc.bind (fun q => (encode v).map (fun e => q ++ [e]))

/-- The emitted add chain
`Ok(query_args).and_then(...).and_then(...)...`: starting from the empty
default buffer, each converted value is encoded and appended in order,
short-circuiting at the first failure (the `Err` carries no buffer: the
partially filled one is dropped with the closure). -/
def bindArgs (encode : Value → Except String β) (vals : List Value) :
    Except String (List β) :=
  vals.foldl (addStep encode) (Except.ok [])

/-- Runtime semantics of the program `quote_args` emits: look up the binding
each `query_args.add(argN)` refers to and apply its `Into` conversion (both
resolved at compile time of the expanded code — `none` models an expanded
program that does not compile), then run the add chain. -/
def runGenerated (encode : Value → Except String β) (g : Generated) :
    Option (Except String (List β)) :=
  match collectOptions (fun i => g.bindings.get? i) g.addNames with
  | none => none
  | some bound =>
      match collectOptions (fun vt => intoParam vt.1 vt.2) bound with
      | none => none
      | some vals => some (bindArgs encode vals)

/-- The error type `crate::Error` as observed through `try_into_any`:
`AnyDriverError` with a formatted message is constructed by the source for
unrepresentable parameter types; `unrepresentableColumnType` is the kind the
spec ascribes to the (backend-side, not under `src/`) column conversion
failures that `try_into_any` propagates verbatim. -/
inductive SqlxError where
  | anyDriverError (msg : String)
  | unrepresentableColumnType (pos : Nat) (ty : String)
deriving DecidableEq, Repr

/-- The parameters branch of `Describe::try_into_any`
(`src/sqlx-core/src/describe.rs`): the `Typed` (`Left`) branch is converted
elementwise with `AnyTypeInfo::try_from`, the conversion's own error replaced
by the formatted `AnyDriverError` naming the type and its ordinal `i`; the
count-only (`Right`) branch and the absent case pass through unchanged. -/
def anyParams (tyTryFrom : T → Option AT) (tyName : T → String)
    (ps : Option (List T ⊕ Nat)) : Except SqlxError (Option (List AT ⊕ Nat)) :=
  match ps with
  | some (Sum.inl parameters) =>
      (collectResults
          (fun p =>
            match tyTryFrom p.2 with
            | some t => Except.ok t
            | none =>
                Except.error
                  (SqlxError.anyDriverError
                    ("Any driver does not support type " ++ tyName p.2
                      ++ " of parameter " ++ toString p.1)))
          parameters.enum).map
        (fun l => some (Sum.inl l))
  | some (Sum.inr count) => Except.ok (some (Sum.inr count))
  | none => Except.ok none

/-- `Describe::try_into_any`: columns are converted first
(`collect::<Result<Vec<_>, _>>()?`, propagating the conversion's error
verbatim), then the parameters; if both succeed, constructing the resulting
`Describe` evaluates `known_enum_tys: unreachable!(...)` and panics, so a
normalized descriptor is never returned. -/
def tryIntoAny (colTryFrom : C → Except SqlxError AC) (tyTryFrom : T → Option AT)
    (tyName : T → String) (d : Describe C T) :
    Outcome SqlxError (Describe AC AT) :=
  match collectResults colTryFrom d.columns with
  | Except.error e => Outcome.err e
  | Except.ok _columns =>
      match anyParams tyTryFrom tyName d.parameters with
      | Except.error e => Outcome.err e
      | Except.ok _parameters =>
          Outcome.panicked "this function is never called by postgres"

/-- A backend-agnostic type descriptor (`AnyTypeInfo`), opaque here. -/
structure AnyTypeInfo where
  kind : String
deriving DecidableEq, Repr

/-- A backend-agnostic column (`AnyColumn`): ordinal, name, converted type. -/
structure AnyColumn where
  ordinal : Nat
  name : String
  type_info : AnyTypeInfo
deriving DecidableEq, Repr

/-- A concrete backend column carrying its ordinal, name and type name (the
shape sqlx backend columns have). -/
structure MColumn where
  ordinal : Nat
  name : String
  tyName : String
deriving DecidableEq, Repr

/-- Modelled from the spec: the `AnyColumn: TryFrom<&DB::Column>` impls are
backend code not under `src/`; per §4.4 a column whose type has an agnostic
representation (`reprOf`) converts, and otherwise the conversion fails with
`UnrepresentableColumnType` naming the column's position (the ordinal the
column itself carries) and its original type. -/
def modelColTryFrom (reprOf : String → Option AnyTypeInfo) (c : MColumn) :
    Except SqlxError AnyColumn :=
  match reprOf c.tyName with
  | some t => Except.ok { ordinal := c.ordinal, name := c.name, type_info := t }
  | none => Except.error (SqlxError.unrepresentableColumnType c.ordinal c.tyName)

/-! Concrete instances used by closed theorems: a backend whose native catalog
maps `INT8` and `TEXT`, one that maps nothing, and small type descriptors. -/

def dbPg : Db :=
  { paramTypeForId := fun t =>
      if t.name = "INT8" then some "i64"
      else if t.name = "TEXT" then some "::std::string::String"
      else none
  , parse := fun s => Except.ok s }

def dbNada : Db :=
  { paramTypeForId := fun _ => none, parse := fun s => Except.ok s }

def tyInt8 : TypeInfo := { name := "INT8" }

def tyText : TypeInfo := { name := "TEXT" }

def tyWeird : TypeInfo := { name := "weird" }

def tyStatus : TypeInfo := { name := "status" }

/-- An agnostic representation that exists for `TEXT` only. -/
def reprTextOnly : String → Option AnyTypeInfo :=
  fun t => if t = "TEXT" then some { kind := "text" } else none

/-- An encoder for the concrete C3 instance: integers encode, text fails. -/
def encNoText : Value → Except String Value := fun v =>
  match v with
  | Value.int n => Except.ok (Value.int n)
  | Value.text s => Except.error ("cannot encode text " ++ s)

/-- A concrete descriptor for the C8 witness: one known-nullable column, one
unknown one. -/
def descNull : Describe MColumn TypeInfo :=
  { columns := [], parameters := none
  , nullable := [some true, none], known_enum_tys := [] }

/-! ## Theorems -/

/-- C10: with zero argument values `quote_args` returns the successful
default-buffer program at once, for every descriptor — `parameters` is never
inspected (the result is the same constant whatever the descriptor holds),
so no unsupported-mode or arity condition can be reached; running the emitted
program yields the empty default buffer. -/
theorem quote_args_empty_short_circuit {C : Type} (db : Db) (info : Describe C TypeInfo) :
    quoteArgs db [] info = Outcome.ok { bindings := [], argsCount := 0, addNames := [] }
    ∧ ∀ (β : Type) (encode : Value → Except String β),
        runGenerated encode { bindings := [], argsCount := 0, addNames := [] }
          = some (Except.ok []) :=
  ⟨rfl, fun _ _ => rfl⟩

/-- C2 counterexample: on a descriptor whose `parameters` is count-only
(`CountOnly 1`, i.e. `Some(Either::Right(1))`) and one supplied value, the
binder does not return a recoverable error to the caller: it hits
`unimplemented!` and panics (aborts). -/
theorem quote_args_count_only_is_a_panic :
    quoteArgs dbPg [Value.int 7]
        { columns := ([] : List MColumn), parameters := some (Sum.inr 1)
        , nullable := [], known_enum_tys := [] }
      = Outcome.panicked "only normal parameter inputs are supported safely" := rfl

/-- C2 (amended): for every descriptor whose `parameters` field is not the
`Typed` branch and every non-empty argument sequence, `quote_args` fails
fatally — it panics via `unimplemented!("only normal parameter inputs are
supported safely")` — rather than returning a recoverable
`UnsupportedParameterMode` error to the caller. -/
theorem quote_args_non_typed_mode_panics {C : Type} (db : Db) (args : List Value)
    (info : Describe C TypeInfo)
    (hargs : args ≠ [])
    (hmode : ∀ tys, info.parameters ≠ some (Sum.inl tys)) :
    quoteArgs db args info
      = Outcome.panicked "only normal parameter inputs are supported safely" := by
  match args, hargs with
  | a :: as, _ =>
    show (match info.parameters with
      | some (Sum.inl params) => _
      | _ => Outcome.panicked "only normal parameter inputs are supported safely")
      = Outcome.panicked "only normal parameter inputs are supported safely"
    match h : info.parameters with
    | none => rfl
    | some (Sum.inr n) => rfl
    | some (Sum.inl tys) => exact absurd h (hmode tys)

/-- C2 witness: the amended statement at a concrete input — absent
parameter information (`None`) and one supplied value. -/
theorem quote_args_non_typed_mode_panics_witness :
    quoteArgs dbNada [Value.text "x"]
        { columns := ([] : List MColumn), parameters := none
        , nullable := [], known_enum_tys := [] }
      = Outcome.panicked "only normal parameter inputs are supported safely" :=
  quote_args_non_typed_mode_panics dbNada [Value.text "x"] _
    (by intro h; cases h) (by intro tys h; cases h)

/-- C1 (the code, evaluated at the spec's own failing inputs): `quote_args`
performs no arity check at all.  With `Typed [INT8]` and the two values
`[42, 43]` (the spec's scenario 2, which it says must fail with
`ArgumentCountMismatch` before any value is touched) the macro succeeds,
emitting one binding (`zip` truncation) while the add chain still names both
`arg0` and `arg1` — the emitted program references the unbound `arg1` and is
ill-formed (`runGenerated` is `none`), which is not an
`ArgumentCountMismatch`.  With `Typed [INT8, TEXT]` and the single value
`[42]` the macro succeeds and the emitted program binds a one-element buffer
outright: no failure of any kind. -/
theorem quote_args_no_arity_check :
    (quoteArgs dbPg [Value.int 42, Value.int 43]
        { columns := ([] : List MColumn), parameters := some (Sum.inl [tyInt8])
        , nullable := [], known_enum_tys := [] }
      = Outcome.ok { bindings := [(Value.int 42, "i64")], argsCount := 2
                   , addNames := [0, 1] })
    ∧ (runGenerated (fun v => Except.ok v)
        { bindings := [(Value.int 42, "i64")], argsCount := 2, addNames := [0, 1] }
      = none)
    ∧ (quoteArgs dbPg [Value.int 42]
        { columns := ([] : List MColumn)
        , parameters := some (Sum.inl [tyInt8, tyText])
        , nullable := [], known_enum_tys := [] }
      = Outcome.ok { bindings := [(Value.int 42, "i64")], argsCount := 1
                   , addNames := [0] })
    ∧ (runGenerated (fun v => Except.ok v)
        { bindings := [(Value.int 42, "i64")], argsCount := 1, addNames := [0] }
      = some (Except.ok [Value.int 42])) := by
  refine ⟨?_, rfl, ?_, rfl⟩ <;> decide

/-- C7 counterexample: the unsupported-parameter-type failure does not name
the parameter's ordinal position.  The same unmapped, unregistered type
`weird` placed at position 0 (parameters `Typed [weird]`) and at position 1
(parameters `Typed [INT8, weird]`) produces the very same error value, so the
error cannot be naming the ordinal position; it names only the reported
type. -/
theorem unsupported_type_error_is_position_blind :
    (quoteArgs dbPg [Value.int 1]
        { columns := ([] : List MColumn), parameters := some (Sum.inl [tyWeird])
        , nullable := [], known_enum_tys := [] }
      = Outcome.err "parameter type `weird` is not supported")
    ∧ (quoteArgs dbPg [Value.int 1, Value.int 2]
        { columns := ([] : List MColumn)
        , parameters := some (Sum.inl [tyInt8, tyWeird])
        , nullable := [], known_enum_tys := [] }
      = Outcome.err "parameter type `weird` is not supported") := by
  constructor <;> decide

/-- C7 (amended): for every parameter whose driver-reported type has no
native-catalog mapping and whose name is not a key of `known_enum_tys`,
resolution fails with the unsupported-parameter-type error, and that error
names the reported type — but not the parameter's ordinal position (the
message is built from the type alone). -/
theorem resolve_unsupported_type_names_type_only {C : Type} (db : Db)
    (info : Describe C TypeInfo) (param : TypeInfo)
    (hn : db.paramTypeForId param = none)
    (he : info.known_enum_tys.lookup param.name = none) :
    resolveParam db info param
      = Except.error ("parameter type `" ++ param.name ++ "` is not supported") := by
  unfold resolveParam
  rw [hn, he]

/-- C7 witness: the amended statement at a concrete input — the catalog-less
backend and the type `weird`, with an empty enum registry. -/
theorem resolve_unsupported_type_names_type_only_witness :
    resolveParam dbNada
        { columns := ([] : List MColumn), parameters := none
        , nullable := [], known_enum_tys := [] }
        tyWeird
      = Except.error "parameter type `weird` is not supported" :=
  resolve_unsupported_type_names_type_only dbNada _ tyWeird rfl rfl

/-- A failed add chain stays failed: every later `.and_then` link is skipped. -/
theorem foldl_addStep_error (encode : Value → Except String β) (e : String) :
    ∀ l : List Value, List.foldl (addStep encode) (Except.error e) l = Except.error e := by
  intro l
  induction l with
  | nil => rfl
  | cons v vs ih => exact ih

/-- C3: the emitted add chain is a strict left-to-right short-circuit.  For
any sequence whose positions before `v` all encode successfully, whose
position `v` fails with `e`, and which contains at least one further failing
position, the whole bind returns exactly `e` — the failure of the
lowest-index failing position — and the result is unchanged under replacing
everything after `v` by anything at all (later positions are never
attempted).  The `Except.error` result carries no buffer: the partially
filled one is discarded, never observable. -/
theorem bindArgs_reports_first_failure (encode : Value → Except String β)
    (pre : List Value) (v : Value) (rest : List Value) (e : String)
    (hpre : ∀ u ∈ pre, ∃ b, encode u = Except.ok b)
    (hv : encode v = Except.error e)
    (hrest : ∃ u ∈ rest, ∃ e2, encode u = Except.error e2) :
    bindArgs encode (pre ++ v :: rest) = Except.error e
    ∧ ∀ rest2 : List Value,
        bindArgs encode (pre ++ v :: rest2) = Except.error e := by
  have key : ∀ (pre2 : List Value) (q : List β) (rest2 : List Value),
      (∀ u ∈ pre2, ∃ b, encode u = Except.ok b) →
      List.foldl (addStep encode) (Except.ok q) (pre2 ++ v :: rest2)
        = Except.error e := by
    intro pre2
    induction pre2 with
    | nil =>
        intro q rest2 _
        have hstep : addStep encode (Except.ok q) v = Except.error e := by
          simp [addStep, hv, Except.bind, Except.map]
        calc List.foldl (addStep encode) (Except.ok q) (v :: rest2)
            = List.foldl (addStep encode) (Except.error e) rest2 := by
              rw [List.foldl_cons, hstep]
          _ = Except.error e := foldl_addStep_error encode e rest2
    | cons u us ih =>
        intro q rest2 hall
        obtain ⟨b, hb⟩ := hall u (List.mem_cons_self u us)
        have hstep : addStep encode (Except.ok q) u = Except.ok (q ++ [b]) := by
          simp [addStep, hb, Except.bind, Except.map]
        calc List.foldl (addStep encode) (Except.ok q) (u :: us ++ v :: rest2)
            = List.foldl (addStep encode) (Except.ok (q ++ [b])) (us ++ v :: rest2) := by
              rw [List.cons_append, List.foldl_cons, hstep]
          _ = Except.error e :=
              ih (q ++ [b]) rest2 (fun w hw => hall w (List.mem_cons_of_mem u hw))
  exact ⟨key pre [] rest hpre, fun rest2 => key pre [] rest2 hpre⟩

/-- C3 witness: at the concrete sequence `[1, "a", "b"]`, where both position
1 and position 2 fail, the chain returns position 1's failure, and replacing
the tail after position 1 leaves the result unchanged. -/
theorem bindArgs_reports_first_failure_witness :
    bindArgs encNoText [Value.int 1, Value.text "a", Value.text "b"]
      = Except.error "cannot encode text a"
    ∧ bindArgs encNoText [Value.int 1, Value.text "a", Value.int 5]
      = Except.error "cannot encode text a" := by
  have h := bindArgs_reports_first_failure encNoText
    [Value.int 1] (Value.text "a") [Value.text "b"] "cannot encode text a"
    (by
      intro u hu
      rw [List.mem_singleton] at hu
      refine ⟨Value.int 1, ?_⟩
      rw [hu]
      rfl)
    rfl
    ⟨Value.text "b", List.mem_singleton.mpr rfl, "cannot encode text b", rfl⟩
  exact ⟨h.1, h.2 [Value.int 5]⟩

/-- C4: a parameter whose reported type has no native mapping but whose name
is registered in `known_enum_tys` resolves successfully to the opaque text
type `::std::string::String`; the registered variant list is never consulted
(`ephemeral_enum_ty` yields the same tokens for every variant list, so no
variant-membership check exists), and the emitted conversion accepts any
textual value whatever, member of the variant list or not. -/
theorem resolve_enum_fallback_is_unchecked_text {C : Type} (db : Db)
    (info : Describe C TypeInfo) (param : TypeInfo) (vs : List String)
    (hnative : db.paramTypeForId param = none)
    (henum : info.known_enum_tys.lookup param.name = some vs) :
    resolveParam db info param = Except.ok "::std::string::String"
    ∧ (∀ vs2 : List String,
        ephemeral_enum_ty param.name vs2 = Except.ok "::std::string::String")
    ∧ (∀ s : String,
        intoParam (Value.text s) "::std::string::String" = some (Value.text s)) := by
  refine ⟨?_, fun _ => rfl, fun s => ?_⟩
  · unfold resolveParam
    rw [hnative, henum]
    rfl
  · simp [intoParam, Value.rustTy]

/-- C4 witness: the spec's scenario 4 — name `status` unmapped natively,
registered variants `["active", "inactive"]`, value `"pending"` (not a
variant) — resolution yields the text type and the conversion of `"pending"`
succeeds. -/
theorem resolve_enum_fallback_is_unchecked_text_witness :
    resolveParam dbNada
        { columns := ([] : List MColumn)
        , parameters := some (Sum.inl [tyStatus]), nullable := []
        , known_enum_tys := [("status", ["active", "inactive"])] }
        tyStatus
      = Except.ok "::std::string::String"
    ∧ intoParam (Value.text "pending") "::std::string::String"
        = some (Value.text "pending") := by
  have h := resolve_enum_fallback_is_unchecked_text dbNada
    { columns := ([] : List MColumn)
    , parameters := some (Sum.inl [tyStatus]), nullable := []
    , known_enum_tys := [("status", ["active", "inactive"])] }
    tyStatus ["active", "inactive"] rfl (by decide)
  exact ⟨h.1, h.2.2 "pending"⟩

/-- C5: normalization is all-or-nothing over columns.  For every descriptor
whose column list contains an unrepresentable column (under the spec-modelled
backend conversion `modelColTryFrom`), `try_into_any` converts columns
independently left to right, stops at the first unrepresentable one, and
returns the single error `UnrepresentableColumnType` naming that column's
position (its ordinal) and its original type — whatever the parameter portion
of the descriptor would have done; no normalized descriptor (no partial
result) is produced. -/
theorem try_into_any_column_failure {T AT : Type}
    (reprOf : String → Option AnyTypeInfo)
    (tyTryFrom : T → Option AT) (tyName : T → String)
    (d : Describe MColumn T) (pre : List MColumn) (c : MColumn) (rest : List MColumn)
    (hcols : d.columns = pre ++ c :: rest)
    (hpre : ∀ c2 ∈ pre, (reprOf c2.tyName).isSome)
    (hc : reprOf c.tyName = none) :
    tryIntoAny (modelColTryFrom reprOf) tyTryFrom tyName d
      = Outcome.err (SqlxError.unrepresentableColumnType c.ordinal c.tyName) := by
  have hcerr : modelColTryFrom reprOf c
      = Except.error (SqlxError.unrepresentableColumnType c.ordinal c.tyName) := by
    unfold modelColTryFrom
    rw [hc]
  have key : ∀ pre2 : List MColumn,
      (∀ c2 ∈ pre2, (reprOf c2.tyName).isSome) →
      collectResults (modelColTryFrom reprOf) (pre2 ++ c :: rest)
        = Except.error (SqlxError.unrepresentableColumnType c.ordinal c.tyName) := by
    intro pre2
    induction pre2 with
    | nil =>
        intro _
        rw [List.nil_append]
        simp [collectResults, hcerr]
    | cons c2 cs ih =>
        intro hall
        obtain ⟨t, ht⟩ :=
          Option.isSome_iff_exists.mp (hall c2 (List.mem_cons_self c2 cs))
        have hok : modelColTryFrom reprOf c2
            = Except.ok { ordinal := c2.ordinal, name := c2.name, type_info := t } := by
          unfold modelColTryFrom
          rw [ht]
        rw [List.cons_append]
        simp [collectResults, hok,
          ih (fun w hw => hall w (List.mem_cons_of_mem c2 hw)), Except.map]
  unfold tryIntoAny
  rw [hcols, key pre hpre]

/-- C5 witness: a three-column descriptor whose second and third columns are
unrepresentable — normalization returns the single error for the second
column (ordinal 1, type `GEOM`), and the parameter side (count-only here) is
irrelevant. -/
theorem try_into_any_column_failure_witness :
    tryIntoAny (modelColTryFrom reprTextOnly)
        (fun t : TypeInfo => (none : Option AnyTypeInfo)) (fun t => t.name)
        { columns :=
            [ { ordinal := 0, name := "a", tyName := "TEXT" }
            , { ordinal := 1, name := "b", tyName := "GEOM" }
            , { ordinal := 2, name := "c", tyName := "BLOB" } ]
        , parameters := some (Sum.inr 2), nullable := [some true, none, none]
        , known_enum_tys := [] }
      = Outcome.err (SqlxError.unrepresentableColumnType 1 "GEOM") := by
  have h := try_into_any_column_failure reprTextOnly
    (fun t : TypeInfo => (none : Option AnyTypeInfo)) (fun t => t.name)
    { columns :=
        [ { ordinal := 0, name := "a", tyName := "TEXT" }
        , { ordinal := 1, name := "b", tyName := "GEOM" }
        , { ordinal := 2, name := "c", tyName := "BLOB" } ]
    , parameters := some (Sum.inr 2), nullable := [some true, none, none]
    , known_enum_tys := [] }
    [{ ordinal := 0, name := "a", tyName := "TEXT" }]
    { ordinal := 1, name := "b", tyName := "GEOM" }
    [{ ordinal := 2, name := "c", tyName := "BLOB" }]
    rfl
    (by
      intro c2 hc2
      rw [List.mem_singleton] at hc2
      rw [hc2]
      rfl)
    rfl
  exact h

/-- C6 counterexample: on the empty descriptor — no columns, no parameters,
so every column type and parameter type trivially has an agnostic
representation — `try_into_any` does not return full success: constructing
the result evaluates `known_enum_tys: unreachable!(...)` and panics. -/
theorem try_into_any_success_path_panics :
    tryIntoAny (modelColTryFrom reprTextOnly)
        (fun t : TypeInfo => some (AnyTypeInfo.mk t.name)) (fun t => t.name)
        { columns := [], parameters := none, nullable := [], known_enum_tys := [] }
      = Outcome.panicked "this function is never called by postgres" := rfl

/-- C6 (amended): for every descriptor all of whose columns and parameters
convert (the `Typed` branch elementwise, and — as the further conjuncts state
— the `CountOnly` integer and `Absent` passing through unchanged in the
parameter conversion), `try_into_any` performs those conversions but never
returns the normalized descriptor: assembling it hits the
`unreachable!("this function is never called by postgres")` placed in
`known_enum_tys`, a fatal panic, so full success is never observed. -/
theorem try_into_any_representable_still_panics {C T AC AT : Type}
    (colTryFrom : C → Except SqlxError AC) (tyTryFrom : T → Option AT)
    (tyName : T → String) (d : Describe C T)
    (cols : List AC) (ps : Option (List AT ⊕ Nat))
    (hc : collectResults colTryFrom d.columns = Except.ok cols)
    (hp : anyParams tyTryFrom tyName d.parameters = Except.ok ps) :
    tryIntoAny colTryFrom tyTryFrom tyName d
      = Outcome.panicked "this function is never called by postgres"
    ∧ (∀ n : Nat, anyParams tyTryFrom tyName (some (Sum.inr n))
        = Except.ok (some (Sum.inr n)))
    ∧ anyParams tyTryFrom tyName (none : Option (List T ⊕ Nat))
        = Except.ok none := by
  refine ⟨?_, fun n => rfl, rfl⟩
  unfold tryIntoAny
  rw [hc, hp]

/-- C6 witness: the amended statement at a concrete input — one representable
`TEXT` column and count-only parameter information, which passes through the
parameter conversion unchanged before the panic. -/
theorem try_into_any_representable_still_panics_witness :
    tryIntoAny (modelColTryFrom reprTextOnly)
        (fun t : TypeInfo => some (AnyTypeInfo.mk t.name)) (fun t => t.name)
        { columns := [{ ordinal := 0, name := "a", tyName := "TEXT" }]
        , parameters := some (Sum.inr 3), nullable := [none]
        , known_enum_tys := [] }
      = Outcome.panicked "this function is never called by postgres" :=
  (try_into_any_representable_still_panics (modelColTryFrom reprTextOnly)
    (fun t : TypeInfo => some (AnyTypeInfo.mk t.name)) (fun t => t.name)
    { columns := [{ ordinal := 0, name := "a", tyName := "TEXT" }]
    , parameters := some (Sum.inr 3), nullable := [none]
    , known_enum_tys := [] }
    [{ ordinal := 0, name := "a", type_info := { kind := "text" } }]
    (some (Sum.inr 3)) rfl rfl).1

/-- C8: `nullable(i)` is total — it returns `some b` exactly when `i` is
within the `nullable` sequence and nullability is known (`some b`) there, and
`none` exactly when `i` is out of range or nullability is unknown (`none`)
there; being a plain `Option`-valued function it has no failure or panic
outcome for any index. -/
theorem nullable_lookup_exact {C T : Type} (d : Describe C T) (i : Nat) :
    (∀ b : Bool, d.nullableAt i = some b
        ↔ i < d.nullable.length ∧ d.nullable.get? i = some (some b))
    ∧ (d.nullableAt i = none
        ↔ d.nullable.length ≤ i ∨ d.nullable.get? i = some none) := by
  unfold Describe.nullableAt
  rcases h : d.nullable.get? i with _ | ob
  · have hlen : d.nullable.length ≤ i := List.get?_eq_none.mp h
    constructor
    · intro b
      simp [h]
    · simp [h, hlen]
  · have hlt : i < d.nullable.length := by
      by_contra hge
      rw [List.get?_eq_none.mpr (Nat.le_of_not_lt hge)] at h
      cases h
    rcases ob with _ | b2
    · constructor
      · intro b
        simp [h]
      · simp [h]
    · constructor
      · intro b
        simp [h, hlt]
      · simp [h, Nat.not_le.mpr hlt]

/-- C8 witness: the characterization applied at concrete indices of the
sequence `[some true, none]` — a known column, an unknown column, and an
out-of-range index, each giving the stated answer. -/
theorem nullable_lookup_exact_witness :
    Describe.nullableAt descNull 0 = some true
    ∧ Describe.nullableAt descNull 1 = none
    ∧ Describe.nullableAt descNull 7 = none := by
  refine ⟨?_, ?_, ?_⟩
  · exact ((nullable_lookup_exact descNull 0).1 true).mpr ⟨by decide, rfl⟩
  · exact (nullable_lookup_exact descNull 1).2.mpr (Or.inr rfl)
  · exact (nullable_lookup_exact descNull 7).2.mpr (Or.inl (by decide))

/-- C9: `column(i)` returns the i-th column descriptor whenever
`i < columns().len()`, and for every out-of-range `i` it fails fatally — the
slice-indexing panic, a contract violation with no recoverable-error value
(the error type of the outcome is uninhabited). -/
theorem column_access_contract {C T : Type} (d : Describe C T) (i : Nat) :
    (∀ h : i < d.columns.length, d.column i = Outcome.ok (d.columns.get ⟨i, h⟩))
    ∧ (d.columns.length ≤ i →
        d.column i = Outcome.panicked
          ("index out of bounds: the len is " ++ toString d.columns.length
            ++ " but the index is " ++ toString i)) := by
  constructor
  · intro h
    unfold Describe.column
    rw [List.get?_eq_get h]
  · intro h
    unfold Describe.column
    rw [List.get?_eq_none.mpr h]

/-- C9 witness: on a two-column descriptor, index 1 returns the second
column and index 5 panics with the out-of-bounds message. -/
theorem column_access_contract_witness :
    Describe.column
        { columns := [(10 : Nat), 20], parameters := none
        , nullable := [], known_enum_tys := ([] : List (String × List String)) }
        (T := TypeInfo) 1 = Outcome.ok 20
    ∧ Describe.column
        { columns := [(10 : Nat), 20], parameters := none
        , nullable := [], known_enum_tys := ([] : List (String × List String)) }
        (T := TypeInfo) 5
      = Outcome.panicked "index out of bounds: the len is 2 but the index is 5" := by
  constructor
  · exact (column_access_contract
      { columns := [(10 : Nat), 20], parameters := none
      , nullable := [], known_enum_tys := [] } 1).1 (by decide)
  · exact (column_access_contract
      { columns := [(10 : Nat), 20], parameters := none
      , nullable := [], known_enum_tys := [] } 5).2 (by decide)

end Sqlp
